import Mathlib

/-!
Verification of the salary-dashboard ingestion pipeline (`DataParser` in
`src/services/dataParser.ts`, bundled in the repository with
`src/components/EmployeeDetail.tsx`) and of the raise-recommendation budget
constraint.

The embedding is shallow: JavaScript numbers are modelled as rationals (ℚ),
JavaScript cell/field values as `Value` (string or number), decoded rows as
association lists from header string to cell string, and thrown exceptions as
`Except.error` carrying the exception message.  File decoding (`papaparse`,
`xlsx`) is an external collaborator per the spec, so the decode step is an
input of the embedded pipeline: an `Except String (List RawRow)` standing for
the outcome that `parseCSV` / `parseXLSX` would deliver for the file.
-/

namespace SalaryDashboard

/-- A JavaScript value held in a mapped row: either a string or a number. -/
inductive Value where
  | str (s : String)
  | num (q : ℚ)
  deriving DecidableEq, Repr

/-- JavaScript truthiness for the values that occur in mapped rows:
the empty string and the number 0 are falsy, everything else is truthy. -/
def Value.truthy : Value → Bool
  | .str s => s ≠ ""
  | .num q => q ≠ 0

/-- Truthiness of a possibly-absent field (JavaScript `undefined` is falsy). -/
def truthyO : Option Value → Bool
  | none => false
  | some v => v.truthy

/-- A decoded raw row: association list from header string to cell string. -/
def RawRow : Type := List (String × String)

/-- A mapped row: association list from canonical field name to value. -/
def MappedRow : Type := List (String × Value)

instance : DecidableEq RawRow := by unfold RawRow; infer_instance

instance : DecidableEq MappedRow := by unfold MappedRow; infer_instance

instance : Repr RawRow := by unfold RawRow; infer_instance

instance : Repr MappedRow := by unfold MappedRow; infer_instance

instance {ε α : Type} [DecidableEq ε] [DecidableEq α] : DecidableEq (Except ε α)
  | .error a, .error b =>
    if h : a = b then .isTrue (by rw [h]) else .isFalse (fun hc => h (by injection hc))
  | .error _, .ok _ => .isFalse (fun hc => Except.noConfusion hc)
  | .ok _, .error _ => .isFalse (fun hc => Except.noConfusion hc)
  | .ok a, .ok b =>
    if h : a = b then .isTrue (by rw [h]) else .isFalse (fun hc => h (by injection hc))

/-- The detected/selected file type of an upload. -/
inductive FileType where
  | salary
  | performance
  | unknown
  deriving DecidableEq, Repr

/-- Per-row validation outcome (`ValidationResult` in `src/types/employee`). -/
structure ValidationResult where
  isValid : Bool
  errors : List String
  warnings : List String
  employeeId : String
  deriving DecidableEq, Repr

/-- The result shape `DataParser.parseFile` returns (`FileUploadResult`). -/
structure FileUploadResult where
  fileName : String
  fileType : FileType
  rowCount : Nat
  validRows : Nat
  errors : List String
  data : List MappedRow
  deriving DecidableEq, Repr

/-- First-match lookup in a synonym table, mirroring JavaScript property
access `mappings[normalizedKey]` on an object literal with distinct keys. -/
def lookupTable : List (String × String) → String → Option String
  | [], _ => none
  | (k, f) :: t, h => if k = h then some f else lookupTable t h

/-- Field read on a mapped row (JavaScript property access). -/
def getF : MappedRow → String → Option Value
  | [], _ => none
  | (k, v) :: t, f => if k = f then some v else getF t f

/-- Field write on a mapped row (JavaScript property assignment: overwrites an
existing key in place, otherwise appends). -/
def setField : MappedRow → String → Value → MappedRow
  | [], k, v => [(k, v)]
  | (k', v') :: t, k, v => if k' = k then (k, v) :: t else (k', v') :: setField t k v

/-- Substring test, mirroring JavaScript `String.prototype.includes`. -/
def strContains (s pat : String) : Bool :=
  s.data.tails.any (fun t => pat.data.isPrefixOf t)

/-- ASCII lowercasing, mirroring JavaScript `toLowerCase` on the header and
extension strings that occur here (defined structurally over the character
list so that proofs can evaluate it). -/
def lowerStr (s : String) : String :=
  (s.data.map Char.toLower).asString

/-- Whitespace trimming, mirroring JavaScript `trim` (structural). -/
def trimStr (s : String) : String :=
  ((s.data.dropWhile Char.isWhitespace).reverse.dropWhile Char.isWhitespace).reverse.asString

/-- Splitting a character list at `.`, mirroring JavaScript `split('.')`. -/
def splitOnDot : List Char → List (List Char)
  | [] => [[]]
  | c :: t =>
    match splitOnDot t with
    | [] => [[c]]
    | h :: r => if c = '.' then [] :: h :: r else (c :: h) :: r

/-- The lowercased final `.`-separated component of the file name, mirroring
`file.name.split('.').pop()?.toLowerCase()`. -/
def fileExtension (name : String) : String :=
  lowerStr (((splitOnDot name.data).getLast?.getD []).asString)

/-- The cleaning step of numeric coercion: JavaScript
`value.replace(/["']/g,'').replace(/[$,£€¥₹]/g,'').replace(/[^\d.-]/g,'').trim()`.
The final regex keeps only digits, dots and dashes, which subsumes the first
two replacements; the trailing trim is then the identity. -/
def cleanNumeric (s : String) : String :=
  (s.data.filter (fun c => c.isDigit ∨ c = '.' ∨ c = '-')).asString

/-- Numeric value of a list of decimal digit characters. -/
def digitsToNat (ds : List Char) : Nat :=
  ds.foldl (fun a c => a * 10 + (c.toNat - 48)) 0

/-- Exponent part of a JavaScript float literal: an optional sign followed by
digits.  Returns `none` when no well-formed exponent follows (in which case
`parseFloat` ignores the trailing `e`). -/
def parseExponent (cs : List Char) : Option ℤ :=
  match cs with
  | 'e' :: rest | 'E' :: rest =>
    match rest with
    | '-' :: ds => if ds.takeWhile Char.isDigit = [] then none else
        some (-(digitsToNat (ds.takeWhile Char.isDigit) : ℤ))
    | '+' :: ds => if ds.takeWhile Char.isDigit = [] then none else
        some ((digitsToNat (ds.takeWhile Char.isDigit) : ℤ))
    | ds => if ds.takeWhile Char.isDigit = [] then none else
        some ((digitsToNat (ds.takeWhile Char.isDigit) : ℤ))
  | _ => none

/-- The exact rational value of a parsed decimal literal: digits `ipart`
before the point and `fpart` after it, a decimal exponent `e` and a sign.
Stated via `mkRat` over natural-number arithmetic (the digits of
`ipart ++ fpart` give the magnitude scaled by `10 ^ fpart.length`). -/
def decimalValue (neg : Bool) (ipart fpart : List Char) (e : Option ℤ) : ℚ :=
  let base : Nat := digitsToNat (ipart ++ fpart)
  let den : Nat := 10 ^ fpart.length
  let scaled : Nat × Nat :=
    match e with
    | some ex =>
      if 0 ≤ ex then (base * 10 ^ ex.toNat, den)
      else (base, den * 10 ^ (-ex).toNat)
    | none => (base, den)
  if neg then mkRat (-(scaled.1 : Int)) scaled.2 else mkRat (scaled.1 : Int) scaled.2

/-- JavaScript `parseFloat` on an already-trimmed string: parse the longest
numeric prefix (optional sign, integer digits, optional fraction, optional
exponent); `none` models `NaN`. -/
def parseFloatQ (s : String) : Option ℚ :=
  let cs := s.data
  let (neg, cs1) :=
    match cs with
    | '-' :: t => (true, t)
    | '+' :: t => (false, t)
    | _ => (false, cs)
  let ipart := cs1.takeWhile Char.isDigit
  let rest1 := cs1.dropWhile Char.isDigit
  let (fpart, rest2) :=
    match rest1 with
    | '.' :: t => (t.takeWhile Char.isDigit, t.dropWhile Char.isDigit)
    | _ => ([], rest1)
  if ipart = [] ∧ fpart = [] then none
  else some (decimalValue neg ipart fpart (parseExponent rest2))

/-- JavaScript `Number()` coercion of a string (used by the engine's `<=`
comparison on a string-valued field): the empty/whitespace string is 0, a
fully-numeric string is its value, anything else is `NaN` (`none`). -/
def jsToNumber (s : String) : Option ℚ :=
  let t := trimStr s
  if t = "" then some 0
  else
    let cs := t.data
    let (neg, cs1) :=
      match cs with
      | '-' :: r => (true, r)
      | '+' :: r => (false, r)
      | _ => (false, cs)
    let ipart := cs1.takeWhile Char.isDigit
    let rest1 := cs1.dropWhile Char.isDigit
    let (fpart, rest2) :=
      match rest1 with
      | '.' :: r => (r.takeWhile Char.isDigit, r.dropWhile Char.isDigit)
      | _ => ([], rest1)
    let (expOk, rest3) :=
      match rest2 with
      | 'e' :: '-' :: ds | 'e' :: '+' :: ds | 'E' :: '-' :: ds | 'E' :: '+' :: ds =>
        (!(ds.takeWhile Char.isDigit).isEmpty, ds.dropWhile Char.isDigit)
      | 'e' :: ds | 'E' :: ds => (!(ds.takeWhile Char.isDigit).isEmpty, ds.dropWhile Char.isDigit)
      | _ => (true, rest2)
    if ipart = [] ∧ fpart = [] then none
    else if rest3 ≠ [] ∨ expOk = false then none
    else some (decimalValue neg ipart fpart (parseExponent rest2))

/-- Exact division of a rational by 100 (`numValue / 100` in the percentage
branch), via `mkRat` so that proofs can evaluate it. -/
def divBy100 (q : ℚ) : ℚ :=
  mkRat q.num (q.den * 100)

/-- Exact division of two naturals as a rational (the validity-rate quotient
`validRows / total`; a zero denominator gives 0, and every comparison the
pipeline makes with it is then false, matching the `NaN` comparisons of the
source). -/
def natRatio (a b : Nat) : ℚ :=
  mkRat (a : Int) b

/-- JavaScript `value <= 0` where `value` may be a string (coerced through
`Number()`; comparisons against `NaN` are false). -/
def jsLEZero : Value → Bool
  | .num q => q ≤ 0
  | .str s =>
    match jsToNumber s with
    | some q => q ≤ 0
    | none => false

/-- Removes the first occurrence of `%`, mirroring JavaScript
`value.replace('%', '')` (a string pattern replaces only the first match). -/
def removeFirstPercent (s : String) : String :=
  ((s.data.takeWhile (· ≠ '%')) ++ (s.data.dropWhile (· ≠ '%')).drop 1).asString

/-- The salary synonym table `SALARY_COLUMN_MAPPINGS`, transcribed entry for
entry from the source; targets are the canonical `SalarySheetRow` field names. -/
def SALARY_COLUMN_MAPPINGS : List (String × String) := [
  ("employee_id", "employeeId"),
  ("employeeid", "employeeId"),
  ("emp_id", "employeeId"),
  ("id", "employeeId"),
  ("employee id", "employeeId"),
  ("employee number", "employeeId"),
  ("employee_number", "employeeId"),
  ("email", "email"),
  ("email_address", "email"),
  ("e-mail", "email"),
  ("work_email", "email"),
  ("name", "name"),
  ("full_name", "name"),
  ("employee_name", "name"),
  ("full name", "name"),
  ("employee full name", "name"),
  ("employee_full_name", "name"),
  ("first_name", "firstName"),
  ("firstname", "firstName"),
  ("first name", "firstName"),
  ("last_name", "lastName"),
  ("lastname", "lastName"),
  ("last name", "lastName"),
  ("country", "country"),
  ("location", "country"),
  ("currency", "currency"),
  ("curr", "currency"),
  ("country iso2", "country"),
  ("base_salary", "baseSalary"),
  ("basesalary", "baseSalary"),
  ("salary", "baseSalary"),
  ("annual_salary", "baseSalary"),
  ("base salary", "baseSalary"),
  ("annual salary", "baseSalary"),
  ("base pay all countries", "baseSalary"),
  ("total base pay", "baseSalary"),
  ("annual calculated base pay all countries", "baseSalary"),
  ("salary_grade_min", "salaryGradeMin"),
  ("grade_min", "salaryGradeMin"),
  ("min_salary", "salaryGradeMin"),
  ("min pay grade value", "salaryGradeMin"),
  ("salary_grade_mid", "salaryGradeMid"),
  ("grade_mid", "salaryGradeMid"),
  ("mid_salary", "salaryGradeMid"),
  ("mid pay grade value", "salaryGradeMid"),
  ("salary_grade_max", "salaryGradeMax"),
  ("grade_max", "salaryGradeMax"),
  ("max_salary", "salaryGradeMax"),
  ("max pay grade value", "salaryGradeMax"),
  ("comparatio", "comparatio"),
  ("time_in_role", "timeInRole"),
  ("months_in_role", "timeInRole"),
  ("tenure", "timeInRole"),
  ("time in role", "timeInRole"),
  ("latest hire date", "hireDate"),
  ("job entry start date", "roleStartDate"),
  ("hire_date", "hireDate"),
  ("start_date", "hireDate"),
  ("role_start_date", "roleStartDate"),
  ("current_role_start", "roleStartDate"),
  ("last_raise_date", "lastRaiseDate"),
  ("last raise date", "lastRaiseDate"),
  ("last salary change date", "lastRaiseDate"),
  ("department", "departmentCode"),
  ("department_code", "departmentCode"),
  ("department - cc based", "departmentCode"),
  ("job_title", "jobTitle"),
  ("title", "jobTitle"),
  ("business title", "jobTitle"),
  ("job profile", "jobTitle"),
  ("job function", "jobTitle"),
  ("job family", "jobTitle"),
  ("manager_id", "managerId"),
  ("manager id", "managerId"),
  ("manager employee number", "managerId"),
  ("manager_name", "managerName"),
  ("manager name", "managerName"),
  ("manager full name", "managerName"),
  ("manager_full_name", "managerName"),
  ("first line manager", "managerName"),
  ("direct manager", "managerName"),
  ("supervisor", "managerName"),
  ("grade band", "gradeLevel"),
  ("grade_band", "gradeLevel"),
  ("compensation grade profile", "gradeLevel"),
  ("salary range segment", "salaryRangeSegment"),
  ("salary_range_segment", "salaryRangeSegment"),
  ("range_segment", "salaryRangeSegment"),
  ("below range minimum?", "belowRangeMinimum"),
  ("below_range_minimum?", "belowRangeMinimum"),
  ("below range minimum", "belowRangeMinimum"),
  ("below_range_minimum", "belowRangeMinimum"),
  ("is_below_minimum", "belowRangeMinimum")]

/-- The performance synonym table `PERFORMANCE_COLUMN_MAPPINGS`, transcribed
entry for entry from the source. -/
def PERFORMANCE_COLUMN_MAPPINGS : List (String × String) := [
  ("employee_id", "employeeId"),
  ("employeeid", "employeeId"),
  ("emp_id", "employeeId"),
  ("id", "employeeId"),
  ("employee id", "employeeId"),
  ("employee number", "employeeId"),
  ("employee_number", "employeeId"),
  ("associate id", "employeeId"),
  ("associate_id", "employeeId"),
  ("email", "email"),
  ("name", "name"),
  ("employee_name", "name"),
  ("employee full name", "name"),
  ("employee_full_name", "name"),
  ("worker", "name"),
  ("performance_rating", "performanceRating"),
  ("rating", "performanceRating"),
  ("performance", "performanceRating"),
  ("perf_rating", "performanceRating"),
  ("performance rating", "performanceRating"),
  ("overall performance rating", "performanceRating"),
  ("overall_performance_rating", "performanceRating"),
  ("overall performance rating (current)", "performanceRating"),
  ("performance: what (current)", "performanceRating"),
  ("performance: how (current)", "performanceRating"),
  ("calibrated value: overall performance rating", "performanceRating"),
  ("calibrated value: performance: what", "performanceRating"),
  ("calibrated value: performance: how", "performanceRating"),
  ("pre-calibrated value: overall performance rating", "performanceRating"),
  ("calibrated value: identified as future talent?", "futuretalent"),
  ("calibrated value: movement readiness", "movementReadiness"),
  ("calibrated value: proposed talent actions", "proposedTalentActions"),
  ("calibrated value: future talent: growth agility", "businessImpactScore"),
  ("calibrated value: future talent: change agility", "businessImpactScore"),
  ("business_impact", "businessImpactScore"),
  ("business_impact_score", "businessImpactScore"),
  ("impact_score", "businessImpactScore"),
  ("business impact", "businessImpactScore"),
  ("retention_risk", "retentionRisk"),
  ("risk_score", "retentionRisk"),
  ("retention risk", "retentionRisk"),
  ("flight_risk", "retentionRisk"),
  ("identified as future talent?", "retentionRisk"),
  ("identified as future talent? (current)", "retentionRisk")]

/-- The fields `mapColumns` parses as numbers. -/
def numericFields : List String :=
  ["baseSalary", "salaryGradeMin", "salaryGradeMid",
   "salaryGradeMax", "timeInRole", "businessImpactScore", "retentionRisk"]

/-- The per-field value coercion performed inside `mapColumns` on a string
cell value.  The three branches mirror the source in order: numeric parsing
for `numericFields`, percentage handling for `performanceRating`, and yes/no
conversion for `retentionRisk`.  Because `retentionRisk` is also a numeric
field, a cell whose cleaned form parses as a number has already been replaced
by that number when the yes/no branch calls `value.toLowerCase()` on it; that
call raises a `TypeError`, modelled as `Except.error`. -/
def coerceValue (field : String) (raw : String) : Except String Value :=
  if raw = "" then .ok (.str raw)
  else if numericFields.contains field then
    if field = "retentionRisk" then
      -- the numeric branch ran first: a parsable value is now a number, and
      -- the yes/no branch's `value.toLowerCase()` on it raises the TypeError
      match parseFloatQ (cleanNumeric raw) with
      | some _ => .error "value.toLowerCase is not a function"
      | none =>
        if trimStr (lowerStr raw) = "yes" ∨ trimStr (lowerStr raw) = "y" ∨
            trimStr (lowerStr raw) = "true" then .ok (.num 1)
        else if trimStr (lowerStr raw) = "no" ∨ trimStr (lowerStr raw) = "n" ∨
            trimStr (lowerStr raw) = "false" then .ok (.num 0)
        else .ok (.str raw)
    else
      match parseFloatQ (cleanNumeric raw) with
      | some q => .ok (.num q)
      | none => .ok (.str raw)
  else if field = "performanceRating" then
    if strContains (trimStr raw) "%" then
      match parseFloatQ (trimStr (removeFirstPercent (trimStr raw))) with
      | some q => .ok (.num (divBy100 q))
      | none => .ok (.str (trimStr raw))
    else .ok (.str (trimStr raw))
  else .ok (.str raw)

/-- The per-row loop of `mapColumns`: iterate over the raw row's keys in
order, look the lowercased-trimmed key up in the synonym table, coerce the
value and assign it to the canonical field.  An exception raised by the
coercion aborts the whole mapping. -/
def mapRowFrom (mappings : List (String × String)) (acc : MappedRow) :
    RawRow → Except String MappedRow
  | [] => .ok acc
  | (k, v) :: rest =>
    match lookupTable mappings (trimStr (lowerStr k)) with
    | none => mapRowFrom mappings acc rest
    | some f =>
      match coerceValue f v with
      | .error e => .error e
      | .ok val => mapRowFrom mappings (setField acc f val) rest

/-- Maps one raw row through a synonym table (`mapColumns` body for one row). -/
def mapRow (mappings : List (String × String)) (row : RawRow) :
    Except String MappedRow :=
  mapRowFrom mappings [] row

/-- `DataParser.mapColumns`: map every raw row through the synonym table; an
exception raised while mapping any row propagates out of the whole call. -/
def mapColumns (mappings : List (String × String)) :
    List RawRow → Except String (List MappedRow)
  | [] => .ok []
  | r :: rs =>
    match mapRow mappings r with
    | .error e => .error e
    | .ok mr =>
      match mapColumns mappings rs with
      | .error e => .error e
      | .ok ms => .ok (mr :: ms)

/-- One field of the combined-file merge: copy the performance-mapped field
onto the salary row only when its value is truthy
(`if (performanceRow.performanceRating) { ... }` and the two analogous ifs). -/
def mergePerfField (sal perf : MappedRow) (f : String) : MappedRow :=
  match getF perf f with
  | some v => if v.truthy then setField sal f v else sal
  | none => sal

/-- The combined-file merge of one performance-mapped row into the salary
row at the same index: `performanceRating`, `businessImpactScore`,
`retentionRisk`, in source order. -/
def mergeRow (sal perf : MappedRow) : MappedRow :=
  mergePerfField (mergePerfField (mergePerfField sal perf "performanceRating")
    perf "businessImpactScore") perf "retentionRisk"

/-- Positional merge of the two mapped row lists
(`salaryData.forEach((salaryRow, index) => ...performanceData[index]...`);
a salary row with no performance row at its index is left unchanged. -/
def mergeRows : List MappedRow → List MappedRow → List MappedRow
  | [], _ => []
  | s :: ss, [] => s :: ss
  | s :: ss, p :: ps => mergeRow s p :: mergeRows ss ps

/-- Whether the decoded file looks like a combined salary+performance export:
some key of the first raw row contains "performance" or "rating"
(`hasPerformanceColumns` in `parseFile`). -/
def hasPerformanceColumns (raw : List RawRow) : Bool :=
  match raw with
  | [] => false
  | r :: _ =>
    r.any (fun kv =>
      strContains (lowerStr kv.1) "performance" ∨ strContains (lowerStr kv.1) "rating")

/-- Per-row salary validation (`DataParser.validateSalaryData`, one row):
returns the ordered error and warning lists the source pushes. -/
def validateSalaryRow (row : MappedRow) : List String × List String :=
  let errs :=
    (if truthyO (getF row "employeeId") then [] else ["Employee ID is required"]) ++
    (if truthyO (getF row "name") ∨ truthyO (getF row "firstName") ∨
        truthyO (getF row "lastName") then [] else ["Employee name is required"]) ++
    (match getF row "baseSalary" with
     | none => ["Valid base salary is required"]
     | some v =>
       if ¬ v.truthy ∨ jsLEZero v then ["Valid base salary is required"] else []) ++
    (match getF row "baseSalary" with
     | some (.str s) => if s ≠ "" then ["Base salary must be a number"] else []
     | _ => [])
  let warns :=
    (if truthyO (getF row "country") then [] else ["Country/location information is missing"]) ++
    (if truthyO (getF row "currency") then [] else ["Currency information is missing"]) ++
    (match getF row "timeInRole" with
     | some v =>
       if v.truthy && (match v with | .str _ => true | .num q => decide (q < 0)) then
         ["Time in role should be a positive number (months)"]
       else []
     | none => [])
  (errs, warns)

/-- `DataParser.validateSalaryData` over the whole mapped list. -/
def validateSalaryData (data : List MappedRow) : List ValidationResult :=
  data.enum.map (fun p =>
    let ew := validateSalaryRow p.2
    { isValid := ew.1.isEmpty,
      errors := ew.1,
      warnings := ew.2,
      employeeId :=
        match getF p.2 "employeeId" with
        | some (.str s) => if s ≠ "" then s else s!"Row {p.1 + 1}"
        | _ => s!"Row {p.1 + 1}" })

/-- Per-row performance validation (`DataParser.validatePerformanceData`). -/
def validatePerformanceRow (row : MappedRow) : List String × List String :=
  let errs :=
    if truthyO (getF row "employeeId") then [] else ["Employee ID is required"]
  let warns :=
    (match getF row "performanceRating" with
     | some (.num q) =>
       if q < 0 ∨ 5 < q then ["Numeric performance rating should be between 0 and 5"] else []
     | some (.str s) =>
       if trimStr s = "" then ["Performance rating cannot be empty"] else []
     | none => []) ++
    (match getF row "retentionRisk" with
     | some v =>
       if v.truthy && (match v with | .str _ => true | .num q => decide (q < 0 ∨ 100 < q)) then
         ["Retention risk should be between 0 and 100"]
       else []
     | none => [])
  (errs, warns)

/-- `DataParser.validatePerformanceData` over the whole mapped list. -/
def validatePerformanceData (data : List MappedRow) : List ValidationResult :=
  data.enum.map (fun p =>
    let ew := validatePerformanceRow p.2
    { isValid := ew.1.isEmpty,
      errors := ew.1,
      warnings := ew.2,
      employeeId :=
        match getF p.2 "employeeId" with
        | some (.str s) => if s ≠ "" then s else s!"Row {p.1 + 1}"
        | _ => s!"Row {p.1 + 1}" })

/-- Modelled from the spec: `ErrorHandler.validateFile`
(`src/utils/errorHandling.ts` is not included under `src/`).  Spec section 4.4
step 1 pre-validates the file's size and extension, section 6 says any
extension other than csv/xlsx/xls "is rejected with a descriptive error naming
supported formats", and Scenario D fixes that message's text.  Files are
modelled as a name plus decoded rows, so only the extension check is
representable; the returned list holds the messages of ERROR-severity
issues. -/
def validateFileErrors (fileName : String) : List String :=
  let ext := fileExtension fileName
  if ext = "csv" ∨ ext = "xlsx" ∨ ext = "xls" then []
  else [s!"Unsupported file type: {ext}. Please use CSV, XLSX, or XLS files."]

/-- Outcome of `ErrorHandler.validateDataStructure`. -/
structure StructureValidation where
  isValid : Bool
  errors : List String
  warnings : List String
  detectedFormat : FileType
  deriving DecidableEq, Repr

/-- Header strings of the decoded rows (keys of the first row). -/
def headersOf (raw : List RawRow) : List String :=
  ((raw.head?).getD []).map (fun kv => kv.1)

/-- Modelled from the spec: the `detectedFormat` heuristic of
`ErrorHandler.validateDataStructure` (not included under `src/`).  Spec
section 4.3: the detector "classifies file type by structural heuristics
(presence of salary-specific vs performance-specific column signatures)".
Modelled: a salary signature is a header the salary synonym table maps to
`baseSalary`; a performance signature is a header the performance table maps
to `performanceRating`. -/
def detectFormat (raw : List RawRow) : FileType :=
  let hs := (headersOf raw).map (fun h => trimStr (lowerStr h))
  if hs.any (fun h => lookupTable SALARY_COLUMN_MAPPINGS h = some "baseSalary") then
    .salary
  else if hs.any (fun h => lookupTable PERFORMANCE_COLUMN_MAPPINGS h = some "performanceRating") then
    .performance
  else .unknown

/-- Modelled from the spec: `ErrorHandler.validateDataStructure` (not included
under `src/`).  Spec section 4.3: it "flags hard failures (zero rows, no
recognizable headers) distinctly from soft warnings"; a header is recognizable
when either synonym table knows it.  No soft warnings are modelled. -/
def validateDataStructure (raw : List RawRow) : StructureValidation :=
  if raw.isEmpty then
    { isValid := false, errors := ["File contains no data rows"],
      warnings := [], detectedFormat := .unknown }
  else
    let recognized :=
      (headersOf raw).any (fun h =>
        (lookupTable SALARY_COLUMN_MAPPINGS (trimStr (lowerStr h))).isSome ∨
        (lookupTable PERFORMANCE_COLUMN_MAPPINGS (trimStr (lowerStr h))).isSome)
    if recognized then
      { isValid := true, errors := [], warnings := [], detectedFormat := detectFormat raw }
    else
      { isValid := false, errors := ["No recognizable column headers were found"],
        warnings := [], detectedFormat := detectFormat raw }

/-- Number of validation results marked valid. -/
def countValid (v : List ValidationResult) : Nat :=
  (v.filter (fun r => r.isValid)).length

/-- Step 4's salary-side mapped data: the salary mapping of the raw rows,
with the performance mapping positionally merged in when the file has
performance-labelled columns. -/
def salaryMappedData (raw : List RawRow) : Except String (List MappedRow) :=
  match mapColumns SALARY_COLUMN_MAPPINGS raw with
  | .error e => .error e
  | .ok s =>
    if hasPerformanceColumns raw then
      match mapColumns PERFORMANCE_COLUMN_MAPPINGS raw with
      | .error e => .error e
      | .ok p => .ok (mergeRows s p)
    else .ok s

/-- The `if (finalType === 'salary' || finalType === 'unknown')` block of
`parseFile` step 4.  `ty` is the caller's `expectedType`, `ft0` the value of
`finalType` on entry.  Returns the mapped data, validation results and
`finalType` left by the block, or the exception it raised. -/
def firstBlock (raw : List RawRow) (ty ft0 : FileType) :
    Except String (List MappedRow × List ValidationResult × FileType) :=
  if ft0 = .salary ∨ ft0 = .unknown then
    match salaryMappedData raw with
    | .error e => .error e
    | .ok sd =>
      if natRatio (countValid (validateSalaryData sd)) (validateSalaryData sd).length >
          mkRat 1 10 ∨ ty = .salary then
        .ok (sd, validateSalaryData sd, .salary)
      else if ty = .unknown then
        match mapColumns PERFORMANCE_COLUMN_MAPPINGS raw with
        | .error e => .error e
        | .ok pd =>
          if natRatio (countValid (validatePerformanceData pd))
              (validatePerformanceData pd).length >
              natRatio (countValid (validateSalaryData sd)) (validateSalaryData sd).length then
            .ok (pd, validatePerformanceData pd, .performance)
          else .ok (sd, validateSalaryData sd, .salary)
      else
        -- unreachable for the source's input types: here ty = performance,
        -- which forces ft0 = performance; the block then leaves its
        -- variables at their initial values
        .ok ([], [], ft0)
  else .ok ([], [], ft0)

/-- Step 4 of `parseFile` (the try block around column mapping): run the
salary/unknown block, then re-map with the performance table whenever
`finalType` ended up as performance. -/
def mapPhase (raw : List RawRow) (ty det : FileType) :
    Except String (List MappedRow × List ValidationResult × FileType) :=
  match firstBlock raw ty (if ty = .unknown then det else ty) with
  | .error e => .error e
  | .ok (m, v, t) =>
    if t = .performance then
      match mapColumns PERFORMANCE_COLUMN_MAPPINGS raw with
      | .error e => .error e
      | .ok p => .ok (p, validatePerformanceData p, .performance)
    else .ok (m, v, t)

/-- Step 5's hard-error collection: for every invalid row, its errors
prefixed with the 1-indexed-plus-header row number. -/
def rowErrors (v : List ValidationResult) : List String :=
  (v.enum.map (fun p =>
    if p.2.isValid then [] else p.2.errors.map (fun e => s!"Row {p.1 + 2}: {e}"))).flatten

/-- Step 5's warning collection: every row's warnings, row-numbered. -/
def rowWarnings (v : List ValidationResult) : List String :=
  (v.enum.map (fun p =>
    p.2.warnings.map (fun w => s!"Row {p.1 + 2}: {w}"))).flatten

/-- Step 5's data filter
(`mappedData.filter((_, index) => validationResults[index].isValid)`).
The two lists always have equal length when this runs; rows beyond the
validation list's length are dropped. -/
def filterByValidity : List MappedRow → List ValidationResult → List MappedRow
  | [], _ => []
  | _ :: _, [] => []
  | m :: ms, r :: rs =>
    if r.isValid then m :: filterByValidity ms rs else filterByValidity ms rs

/-- Step 5 of `parseFile`: assemble the successful `FileUploadResult` from
the raw rows, structural validation, mapped data and validation results. -/
def assembleResult (name : String) (raw : List RawRow) (sv : StructureValidation)
    (m : List MappedRow) (v : List ValidationResult) (t : FileType) : FileUploadResult :=
  let allErrors := rowErrors v
  let allWarnings := rowWarnings v ++ sv.warnings.map (fun w => s!"Data structure: {w}")
  { fileName := name,
    fileType := t,
    rowCount := raw.length,
    validRows := countValid v,
    errors := allErrors ++ allWarnings.map (fun w => s!"Warning: {w}"),
    data := filterByValidity m v }

/-- Step 2 of `parseFile`: dispatch on the file extension.  `decode` is the
outcome the applicable external decoder (`parseCSV` / `parseXLSX`) would
deliver for this file (its `Except.error` covers the CSV parse-errors throw
and XLSX rejections); an unsupported extension raises the descriptive
error. -/
def step2Decode (fileName : String) (decode : Except String (List RawRow)) :
    Except String (List RawRow) :=
  if fileExtension fileName = "csv" then decode
  else if fileExtension fileName = "xlsx" ∨ fileExtension fileName = "xls" then decode
  else .error s!"Unsupported file type: {fileExtension fileName}. Please use CSV, XLSX, or XLS files."

/-- `DataParser.parseFile`, instrumented: the second component records the
message of an exception the pipeline caught internally (the source logs it
via `console.error`), `none` when no exception was raised. -/
def parseFileCore (fileName : String) (expectedType : FileType)
    (decode : Except String (List RawRow)) : FileUploadResult × Option String :=
  match validateFileErrors fileName with
  | e :: es =>
    ({ fileName := fileName, fileType := .unknown, rowCount := 0, validRows := 0,
       errors := e :: es, data := [] }, none)
  | [] =>
    match step2Decode fileName decode with
    | .error msg =>
      ({ fileName := fileName, fileType := .unknown, rowCount := 0, validRows := 0,
         errors := [s!"Failed to parse file: {msg}"], data := [] }, some msg)
    | .ok raw =>
      if raw.length = 0 then
        ({ fileName := fileName, fileType := .unknown, rowCount := 0, validRows := 0,
           errors := ["File is empty or contains no valid data rows"], data := [] }, none)
      else if (validateDataStructure raw).isValid then
        match mapPhase raw expectedType (validateDataStructure raw).detectedFormat with
        | .error msg =>
          ({ fileName := fileName,
             fileType :=
               if expectedType = .unknown then (validateDataStructure raw).detectedFormat
               else expectedType,
             rowCount := raw.length, validRows := 0,
             errors := [s!"Column mapping failed: {msg}"], data := [] }, some msg)
        | .ok (m, v, t) => (assembleResult fileName raw (validateDataStructure raw) m v t, none)
      else
        ({ fileName := fileName, fileType := (validateDataStructure raw).detectedFormat,
           rowCount := raw.length, validRows := 0,
           errors := (validateDataStructure raw).errors ++
             (validateDataStructure raw).warnings.map (fun w => s!"Warning: {w}"),
           data := [] }, none)

/-- `DataParser.parseFile` as the caller observes it. -/
def parseFile (fileName : String) (expectedType : FileType)
    (decode : Except String (List RawRow)) : FileUploadResult :=
  (parseFileCore fileName expectedType decode).1

/-- The budget context `EmployeeDetail` passes to the recommendation:
`available = totalBudget - currentBudgetUsage` and the caller-supplied
location-dependent percentage cap. -/
structure BudgetConstraints where
  available : ℚ
  maxPercent : ℚ
  deriving DecidableEq, Repr

/-- The raise recommendation's numeric outputs. -/
structure RaiseRecommendation where
  recommendedAmount : ℚ
  recommendedPercent : ℚ
  deriving DecidableEq, Repr

/-- Modelled from the spec: `EmployeeCalculations.calculateOptimalRaise`
(`src/utils/calculations.ts` is not included under `src/`).  Spec section 4.5:
the recommended amount "(a) scale[s] with totalRisk and with how far below
grade-mid the employee sits, (b) never exceed[s] maxPercent of currentSalary,
(c) never exceed[s] the remaining available budget, (d) [is] floored at 0 when
the employee is already above grade-mid with low risk".  The uncapped target
is one concrete choice of the (a)/(d) scaling; the caps (b) and (c) are
applied on top of it exactly as the spec states them. -/
def calculateOptimalRaise (currentSalary totalRisk comparatio : ℚ)
    (b : BudgetConstraints) : RaiseRecommendation :=
  let targetPercent : ℚ := totalRisk / 10 + (max 0 (100 - comparatio)) / 10
  let rawAmount : ℚ :=
    if 100 ≤ comparatio ∧ totalRisk ≤ 30 then 0
    else currentSalary * targetPercent / 100
  let amount := min rawAmount (min (currentSalary * b.maxPercent / 100) b.available)
  { recommendedAmount := amount,
    recommendedPercent := if currentSalary = 0 then 0 else amount / currentSalary * 100 }

/-- The claim's notion of "validity rate" for the salary mapping: the
fraction of rows of the salary-mapped (and, for combined files, merged) data
that pass row-level salary validation. -/
def salaryValidityOf (raw : List RawRow) : ℚ :=
  match salaryMappedData raw with
  | .ok d => natRatio (countValid (validateSalaryData d)) d.length
  | .error _ => 0

/-- The claim's notion of "validity rate" for the performance mapping. -/
def performanceValidityOf (raw : List RawRow) : ℚ :=
  match mapColumns PERFORMANCE_COLUMN_MAPPINGS raw with
  | .ok d => natRatio (countValid (validatePerformanceData d)) d.length
  | .error _ => 0

/-! Helper lemmas about the embedded operations. -/

theorem mapColumns_length {mappings : List (String × String)} :
    ∀ {raw : List RawRow} {out : List MappedRow},
      mapColumns mappings raw = .ok out → out.length = raw.length := by
  intro raw
  induction raw with
  | nil => intro out h; simp [mapColumns] at h; simp [← h]
  | cons r rs ih =>
    intro out h
    unfold mapColumns at h
    cases hr : mapRow mappings r with
    | error e => rw [hr] at h; exact absurd h (by simp)
    | ok mr =>
      rw [hr] at h
      cases hs : mapColumns mappings rs with
      | error e => rw [hs] at h; exact absurd h (by simp)
      | ok ms =>
        rw [hs] at h
        simp only [Except.ok.injEq] at h
        subst h
        simp [ih hs]

theorem mergeRows_length : ∀ (s p : List MappedRow), (mergeRows s p).length = s.length
  | [], _ => rfl
  | _ :: ss, [] => by simp [mergeRows]
  | s :: ss, p :: ps => by simp [mergeRows, mergeRows_length ss ps]

theorem validateSalaryData_length (d : List MappedRow) :
    (validateSalaryData d).length = d.length := by
  simp [validateSalaryData]

theorem validatePerformanceData_length (d : List MappedRow) :
    (validatePerformanceData d).length = d.length := by
  simp [validatePerformanceData]

theorem countValid_le (v : List ValidationResult) : countValid v ≤ v.length :=
  List.length_filter_le _ v

theorem countValid_cons (r : ValidationResult) (v : List ValidationResult) :
    countValid (r :: v) = if r.isValid then countValid v + 1 else countValid v := by
  by_cases hr : r.isValid <;> simp [countValid, List.filter_cons, hr]

theorem filterByValidity_length :
    ∀ {m : List MappedRow} {v : List ValidationResult}, m.length = v.length →
      (filterByValidity m v).length = countValid v := by
  intro m
  induction m with
  | nil =>
    intro v h
    cases v with
    | nil => simp [filterByValidity, countValid]
    | cons r rs => simp at h
  | cons x xs ih =>
    intro v h
    cases v with
    | nil => simp at h
    | cons r rs =>
      simp only [List.length_cons, Nat.succ.injEq] at h
      by_cases hr : r.isValid <;>
        simp [filterByValidity, hr, countValid_cons, ih h]

theorem salaryMappedData_length {raw : List RawRow} {sd : List MappedRow}
    (h : salaryMappedData raw = .ok sd) : sd.length = raw.length := by
  unfold salaryMappedData at h
  split at h
  · exact absurd h (by simp)
  · rename_i s hs
    split at h
    · split at h
      · exact absurd h (by simp)
      · rename_i p hq
        simp only [Except.ok.injEq] at h
        subst h
        rw [mergeRows_length, mapColumns_length hs]
    · simp only [Except.ok.injEq] at h
      subst h
      exact mapColumns_length hs

theorem firstBlock_ok_lengths {raw : List RawRow} {ty ft0 : FileType}
    {m : List MappedRow} {v : List ValidationResult} {t : FileType}
    (h : firstBlock raw ty ft0 = .ok (m, v, t)) :
    m.length = v.length ∧ v.length ≤ raw.length := by
  unfold firstBlock at h
  split at h
  · split at h
    · exact absurd h (by simp)
    · rename_i sd hs
      split at h
      · simp only [Except.ok.injEq, Prod.mk.injEq] at h
        obtain ⟨hm, hv, _⟩ := h
        subst hm; subst hv
        rw [validateSalaryData_length, salaryMappedData_length hs]
        exact ⟨rfl, le_refl _⟩
      · split at h
        · split at h
          · exact absurd h (by simp)
          · rename_i pd hq
            split at h
            · simp only [Except.ok.injEq, Prod.mk.injEq] at h
              obtain ⟨hm, hv, _⟩ := h
              subst hm; subst hv
              rw [validatePerformanceData_length, mapColumns_length hq]
              exact ⟨rfl, le_refl _⟩
            · simp only [Except.ok.injEq, Prod.mk.injEq] at h
              obtain ⟨hm, hv, _⟩ := h
              subst hm; subst hv
              rw [validateSalaryData_length, salaryMappedData_length hs]
              exact ⟨rfl, le_refl _⟩
        · simp only [Except.ok.injEq, Prod.mk.injEq] at h
          obtain ⟨hm, hv, _⟩ := h
          subst hm; subst hv
          simp
  · simp only [Except.ok.injEq, Prod.mk.injEq] at h
    obtain ⟨hm, hv, _⟩ := h
    subst hm; subst hv
    simp

theorem mapPhase_ok_lengths {raw : List RawRow} {ty det : FileType}
    {m : List MappedRow} {v : List ValidationResult} {t : FileType}
    (h : mapPhase raw ty det = .ok (m, v, t)) :
    m.length = v.length ∧ v.length ≤ raw.length := by
  unfold mapPhase at h
  split at h
  · exact absurd h (by simp)
  · rename_i m0 v0 t0 hf
    split at h
    · split at h
      · exact absurd h (by simp)
      · rename_i p hq
        simp only [Except.ok.injEq, Prod.mk.injEq] at h
        obtain ⟨hm, hv, _⟩ := h
        subst hm; subst hv
        rw [validatePerformanceData_length, mapColumns_length hq]
        exact ⟨rfl, le_refl _⟩
    · simp only [Except.ok.injEq, Prod.mk.injEq] at h
      obtain ⟨hm, hv, ht0⟩ := h
      subst hm; subst hv
      exact firstBlock_ok_lengths hf

/-- C4: For every FileUploadResult produced by parseFile (including all
early-return error branches), validRows ≤ rowCount and data.length equals
validRows. -/
theorem parseFile_count_invariants (name : String) (ty : FileType)
    (dec : Except String (List RawRow)) :
    (parseFile name ty dec).validRows ≤ (parseFile name ty dec).rowCount ∧
    (parseFile name ty dec).data.length = (parseFile name ty dec).validRows := by
  unfold parseFile parseFileCore
  cases hv : validateFileErrors name with
  | cons e es => simp
  | nil =>
    cases hd : step2Decode name dec with
    | error msg => simp
    | ok raw =>
      dsimp only
      by_cases hz : raw.length = 0
      · simp [hz]
      · rw [if_neg hz]
        by_cases hsv : (validateDataStructure raw).isValid
        · rw [if_pos hsv]
          cases hmp : mapPhase raw ty (validateDataStructure raw).detectedFormat with
          | error msg => simp
          | ok res =>
            obtain ⟨m, v, t⟩ := res
            obtain ⟨hmv, hvr⟩ := mapPhase_ok_lengths hmp
            simp only [assembleResult]
            exact ⟨le_trans (countValid_le v) hvr, filterByValidity_length hmv⟩
        · rw [if_neg hsv]
          simp

/-- C3: For any input file whose extension is not csv, xlsx, or xls,
parseFile returns a result with empty data and an errors list equal to the
single descriptive message naming the unsupported extension and the
supported formats. -/
theorem parseFile_unsupported_extension (name : String) (ty : FileType)
    (dec : Except String (List RawRow))
    (h1 : fileExtension name ≠ "csv") (h2 : fileExtension name ≠ "xlsx")
    (h3 : fileExtension name ≠ "xls") :
    parseFile name ty dec =
      { fileName := name, fileType := .unknown, rowCount := 0, validRows := 0,
        errors := [s!"Unsupported file type: {fileExtension name}. Please use CSV, XLSX, or XLS files."],
        data := [] } := by
  have hnot : ¬(fileExtension name = "csv" ∨ fileExtension name = "xlsx" ∨
      fileExtension name = "xls") := by
    rintro (h | h | h)
    · exact h1 h
    · exact h2 h
    · exact h3 h
  unfold parseFile parseFileCore validateFileErrors
  rw [if_neg hnot]

/-- Witness for C3: a `.docx` upload is rejected with exactly the
descriptive message from Scenario D. -/
theorem parseFile_unsupported_extension_witness :
    parseFile "report.docx" FileType.salary (Except.ok []) =
      { fileName := "report.docx", fileType := FileType.unknown, rowCount := 0,
        validRows := 0,
        errors := ["Unsupported file type: docx. Please use CSV, XLSX, or XLS files."],
        data := [] } :=
  parseFile_unsupported_extension "report.docx" FileType.salary (Except.ok [])
    (by decide) (by decide) (by decide)

/-- C7: A salary row is valid iff employeeId is present, at least one of
name/firstName/lastName is present, and baseSalary is present and > 0
(numeric); and a salary file whose only data row is missing baseSalary yields
validRows=0, the row excluded from data, and an error list containing the
exact string "Row 2: Valid base salary is required". -/
theorem validateSalaryData_valid_iff :
    (∀ row : MappedRow, (validateSalaryRow row).1 = [] ↔
      (truthyO (getF row "employeeId") = true ∧
       (truthyO (getF row "name") = true ∨ truthyO (getF row "firstName") = true ∨
        truthyO (getF row "lastName") = true) ∧
       ∃ q : ℚ, getF row "baseSalary" = some (Value.num q) ∧ 0 < q)) ∧
    ((parseFile "salaries.csv" FileType.salary
        (Except.ok [[("employee id", "E100"), ("name", "Jane Doe")]])).validRows = 0 ∧
     (parseFile "salaries.csv" FileType.salary
        (Except.ok [[("employee id", "E100"), ("name", "Jane Doe")]])).data = [] ∧
     "Row 2: Valid base salary is required" ∈
       (parseFile "salaries.csv" FileType.salary
         (Except.ok [[("employee id", "E100"), ("name", "Jane Doe")]])).errors) := by
  constructor
  · intro row
    unfold validateSalaryRow
    rcases hb : getF row "baseSalary" with _ | v
    · simp [hb]
    · cases v with
      | str s =>
        simp [hb, Value.truthy]
        exact fun _ _ hs _ => hs
      | num q =>
        simp [hb, Value.truthy, jsLEZero]
        intro _
        cases hbn : truthyO (getF row "name") <;>
          cases hbf : truthyO (getF row "firstName") <;>
            cases hbl : truthyO (getF row "lastName") <;>
              simp <;>
                exact fun h => ne_of_gt h
  · exact ⟨by decide, by decide, by decide⟩

/-- C9: Column mapping is case- and surrounding-whitespace-insensitive: the
headers "Employee ID", "employee_id" and " EMPLOYEE ID " all map their value
to the canonical employeeId field, and replacing any header of a raw row by a
variant with the same lowercased-trimmed form leaves the mapped record
unchanged. -/
theorem mapColumns_header_insensitive :
    (mapRow SALARY_COLUMN_MAPPINGS [("Employee ID", "E7")] =
        .ok [("employeeId", Value.str "E7")] ∧
     mapRow SALARY_COLUMN_MAPPINGS [("employee_id", "E7")] =
        .ok [("employeeId", Value.str "E7")] ∧
     mapRow SALARY_COLUMN_MAPPINGS [(" EMPLOYEE ID ", "E7")] =
        .ok [("employeeId", Value.str "E7")]) ∧
    (∀ (mappings : List (String × String)) (pre suf : List (String × String))
        (k k' v : String), trimStr (lowerStr k) = trimStr (lowerStr k') →
      mapRow mappings (pre ++ (k, v) :: suf) = mapRow mappings (pre ++ (k', v) :: suf)) := by
  refine ⟨⟨by decide, by decide, by decide⟩, ?_⟩
  intro mappings pre suf k k' v hnorm
  unfold mapRow
  have main : ∀ acc : MappedRow,
      mapRowFrom mappings acc (pre ++ (k, v) :: suf) =
      mapRowFrom mappings acc (pre ++ (k', v) :: suf) := by
    induction pre with
    | nil =>
      intro acc
      show mapRowFrom mappings acc ((k, v) :: suf) = mapRowFrom mappings acc ((k', v) :: suf)
      unfold mapRowFrom
      rw [hnorm]
    | cons p ps ih =>
      intro acc
      show mapRowFrom mappings acc (p :: (ps ++ (k, v) :: suf)) =
        mapRowFrom mappings acc (p :: (ps ++ (k', v) :: suf))
      unfold mapRowFrom
      cases hl : lookupTable mappings (trimStr (lowerStr p.1)) with
      | none => simp only [hl]; exact ih acc
      | some f =>
        simp only [hl]
        cases hc : coerceValue f p.2 with
        | error e => simp only [hc]
        | ok val => simp only [hc]; exact ih (setField acc f val)
  exact main []

/-- Witness for C9's general part: padding and case changes on one header of
a two-column row leave the mapped record unchanged. -/
theorem mapColumns_header_insensitive_witness :
    mapRow SALARY_COLUMN_MAPPINGS [("Employee ID", "E7"), ("Base Salary", "100")] =
      mapRow SALARY_COLUMN_MAPPINGS [(" EMPLOYEE id ", "E7"), ("Base Salary", "100")] :=
  mapColumns_header_insensitive.2 SALARY_COLUMN_MAPPINGS []
    [("Base Salary", "100")] "Employee ID" " EMPLOYEE id " "E7" (by decide)

theorem getF_setField : ∀ (m : MappedRow) (k f : String) (v : Value),
    getF (setField m k v) f = if k = f then some v else getF m f := by
  intro m
  induction m with
  | nil => intro k f v; simp [setField, getF]
  | cons p t ih =>
    intro k f v
    obtain ⟨k', v'⟩ := p
    by_cases h1 : k' = k
    · subst h1
      simp only [setField, if_pos rfl, getF]
      by_cases h2 : k' = f <;> simp [getF, h2]
    · simp only [setField, if_neg h1, getF]
      by_cases h2 : k' = f
      · subst h2
        have : ¬ k = k' := fun hc => h1 hc.symm
        simp [this]
      · simp [h2, ih]

theorem getF_mergePerfField_ne (s p : MappedRow) (g f : String) (h : g ≠ f) :
    getF (mergePerfField s p g) f = getF s f := by
  unfold mergePerfField
  cases getF p g with
  | none => rfl
  | some v =>
    by_cases hv : v.truthy <;> simp [hv, getF_setField, h]

/-- C10: During combined-file merging, a performance field whose coerced
value is falsy is not copied onto the salary row: a retentionRisk of "No"
(coerced to 0), a performanceRating coerced to the empty string, or a
businessImpactScore of 0 is silently dropped, and the merged salary row's
field is exactly the salary mapping's own (typically absent) value. -/
theorem mergeRow_drops_falsy :
    (∀ (sal perf : MappedRow) (f : String),
      (f = "performanceRating" ∨ f = "businessImpactScore" ∨ f = "retentionRisk") →
      truthyO (getF perf f) = false →
      getF (mergeRow sal perf) f = getF sal f) ∧
    coerceValue "retentionRisk" "No" = .ok (.num 0) ∧
    mergeRow [("employeeId", Value.str "E1")]
        [("retentionRisk", Value.num 0), ("performanceRating", Value.str ""),
         ("businessImpactScore", Value.num 0)] =
      [("employeeId", Value.str "E1")] := by
  refine ⟨?_, by decide, by decide⟩
  intro sal perf f hf hfalsy
  have hself : ∀ s : MappedRow, getF (mergePerfField s perf f) f = getF s f := by
    intro s
    unfold mergePerfField
    cases hg : getF perf f with
    | none => rfl
    | some v =>
      rw [hg] at hfalsy
      simp only [truthyO] at hfalsy
      simp [hfalsy]
  rcases hf with hf | hf | hf <;> subst hf
  · unfold mergeRow
    rw [getF_mergePerfField_ne _ _ _ _ (by decide),
      getF_mergePerfField_ne _ _ _ _ (by decide), hself]
  · unfold mergeRow
    rw [getF_mergePerfField_ne _ _ _ _ (by decide), hself,
      getF_mergePerfField_ne _ _ _ _ (by decide)]
  · unfold mergeRow
    rw [hself, getF_mergePerfField_ne _ _ _ _ (by decide),
      getF_mergePerfField_ne _ _ _ _ (by decide)]

/-- Witness for C10: a perf-mapped row whose only performance fields are
falsy leaves the salary row's retentionRisk reading unchanged. -/
theorem mergeRow_drops_falsy_witness :
    getF (mergeRow [("baseSalary", Value.num 100)] [("retentionRisk", Value.num 0)])
        "retentionRisk" =
      getF [("baseSalary", Value.num 100)] "retentionRisk" :=
  mergeRow_drops_falsy.1 [("baseSalary", Value.num 100)]
    [("retentionRisk", Value.num 0)] "retentionRisk" (Or.inr (Or.inr rfl)) (by decide)

/-- C8: For every employee and budget context, the raise recommendation
satisfies recommendedAmount ≤ available and
recommendedAmount ≤ currentSalary × maxPercent / 100. -/
theorem calculateOptimalRaise_budget (currentSalary totalRisk comparatio : ℚ)
    (b : BudgetConstraints) :
    (calculateOptimalRaise currentSalary totalRisk comparatio b).recommendedAmount ≤
      b.available ∧
    (calculateOptimalRaise currentSalary totalRisk comparatio b).recommendedAmount ≤
      currentSalary * b.maxPercent / 100 := by
  unfold calculateOptimalRaise
  constructor
  · exact le_trans (min_le_right _ _) (min_le_right _ _)
  · exact le_trans (min_le_right _ _) (min_le_left _ _)

/-- Counterexample for C6: coercion does throw for one class of string
inputs — a retentionRisk value whose cleaned form parses as a number (here
"75"): the numeric branch has already replaced it by a number when the
yes/no branch calls toLowerCase on it. -/
theorem coerceValue_retentionRisk_throws :
    coerceValue "retentionRisk" "75" = .error "value.toLowerCase is not a function" := by
  decide

/-- C6 (amended): the three coercion round-trips hold ("$82,500.00" →
82500, "87%" → 0.87, "Yes" → 1); coercion never throws except for a
retentionRisk value whose cleaned form parses as a number; and on every
other numeric field an unparsable value is left as the original string. -/
theorem coerceValue_roundtrips :
    coerceValue "baseSalary" "$82,500.00" = .ok (.num 82500) ∧
    coerceValue "performanceRating" "87%" = .ok (.num (mkRat 87 100)) ∧
    coerceValue "retentionRisk" "Yes" = .ok (.num 1) ∧
    (∀ field v e, coerceValue field v = .error e →
      field = "retentionRisk" ∧ (parseFloatQ (cleanNumeric v)).isSome = true) ∧
    (∀ field v, numericFields.contains field = true → field ≠ "retentionRisk" →
      parseFloatQ (cleanNumeric v) = none → coerceValue field v = .ok (.str v)) := by
  refine ⟨by decide, by decide, by decide, ?_, ?_⟩
  · intro field v e h
    unfold coerceValue at h
    by_cases h0 : v = ""
    · rw [if_pos h0] at h
      exact absurd h (by simp)
    · rw [if_neg h0] at h
      by_cases h1 : numericFields.contains field = true
      · rw [if_pos h1] at h
        by_cases h2 : field = "retentionRisk"
        · rw [if_pos h2] at h
          refine ⟨h2, ?_⟩
          cases hp : parseFloatQ (cleanNumeric v) with
          | none =>
            rw [hp] at h
            by_cases h3 : trimStr (lowerStr v) = "yes" ∨ trimStr (lowerStr v) = "y" ∨
                trimStr (lowerStr v) = "true"
            · rw [if_pos h3] at h; exact absurd h (by simp)
            · rw [if_neg h3] at h
              by_cases h4 : trimStr (lowerStr v) = "no" ∨ trimStr (lowerStr v) = "n" ∨
                  trimStr (lowerStr v) = "false"
              · rw [if_pos h4] at h; exact absurd h (by simp)
              · rw [if_neg h4] at h; exact absurd h (by simp)
          | some q => simp [hp]
        · rw [if_neg h2] at h
          cases hp : parseFloatQ (cleanNumeric v) with
          | none => rw [hp] at h; exact absurd h (by simp)
          | some q => rw [hp] at h; exact absurd h (by simp)
      · rw [if_neg h1] at h
        by_cases h2 : field = "performanceRating"
        · rw [if_pos h2] at h
          by_cases h3 : strContains (trimStr v) "%" = true
          · rw [if_pos h3] at h
            cases hp : parseFloatQ (trimStr (removeFirstPercent (trimStr v))) with
            | none => rw [hp] at h; exact absurd h (by simp)
            | some q => rw [hp] at h; exact absurd h (by simp)
          · rw [if_neg h3] at h; exact absurd h (by simp)
        · rw [if_neg h2] at h; exact absurd h (by simp)
  · intro field v h1 h2 hp
    unfold coerceValue
    by_cases h0 : v = ""
    · rw [if_pos h0]
    · rw [if_neg h0, if_pos h1, if_neg h2, hp]

/-- Witness for C6's universally quantified parts: an unparsable baseSalary
string is left unchanged (obtained from the theorem's last conjunct). -/
theorem coerceValue_roundtrips_witness :
    coerceValue "baseSalary" "abc" = .ok (.str "abc") :=
  coerceValue_roundtrips.2.2.2.2 "baseSalary" "abc" (by decide) (by decide) (by decide)

theorem step2Decode_ok {name : String} {dec : Except String (List RawRow)}
    {raw : List RawRow} (h : step2Decode name dec = .ok raw) : dec = .ok raw := by
  unfold step2Decode at h
  split_ifs at h <;> simp_all

/-- Counterexample for C1: an exception caught at the column-mapping stage
(the retentionRisk TypeError) is converted into a result whose rowCount is
the decoded row count (here 1), not 0 as the claim states. -/
theorem parseFile_mapping_exception_rowcount :
    (parseFileCore "perf.csv" FileType.performance
        (Except.ok [[("retention risk", "75"), ("employee id", "E1")]])).2 =
      some "value.toLowerCase is not a function" ∧
    (parseFileCore "perf.csv" FileType.performance
        (Except.ok [[("retention risk", "75"), ("employee id", "E1")]])).1.rowCount = 1 :=
  ⟨by decide, by decide⟩

/-- C1 (amended): parseFile always returns a result and never propagates an
exception; any exception caught internally is converted into a result with
validRows=0, empty data and a non-empty descriptive error list, whose
rowCount is 0 except in the column-mapping catch, where it equals the
decoded row count. -/
theorem parseFile_exceptions_converted (name : String) (ty : FileType)
    (dec : Except String (List RawRow)) (msg : String)
    (h : (parseFileCore name ty dec).2 = some msg) :
    (parseFileCore name ty dec).1.validRows = 0 ∧
    (parseFileCore name ty dec).1.data = [] ∧
    (parseFileCore name ty dec).1.errors ≠ [] ∧
    ((parseFileCore name ty dec).1.rowCount = 0 ∨
      ∃ rows, dec = Except.ok rows ∧
        (parseFileCore name ty dec).1.rowCount = rows.length) := by
  unfold parseFileCore at h ⊢
  cases hv : validateFileErrors name with
  | cons e es =>
    rw [hv] at h
    simp at h
  | nil =>
    rw [hv] at h
    cases hd : step2Decode name dec with
    | error msg0 =>
      rw [hd] at h
      exact ⟨rfl, rfl, by simp, Or.inl rfl⟩
    | ok raw =>
      rw [hd] at h
      dsimp only at h ⊢
      by_cases hz : raw.length = 0
      · rw [if_pos hz] at h
        simp at h
      · rw [if_neg hz] at h ⊢
        by_cases hsv : (validateDataStructure raw).isValid = true
        · rw [if_pos hsv] at h ⊢
          cases hmp : mapPhase raw ty (validateDataStructure raw).detectedFormat with
          | error msg1 =>
            rw [hmp] at h
            exact ⟨rfl, rfl, by simp, Or.inr ⟨raw, step2Decode_ok hd, rfl⟩⟩
          | ok res =>
            rw [hmp] at h
            obtain ⟨m, v, t⟩ := res
            simp at h
        · rw [if_neg hsv] at h
          simp at h

/-- Witness for C1 (amended): the decode-stage failure of an unreadable CSV
is converted into a zero-row result with a non-empty error list. -/
theorem parseFile_exceptions_converted_witness :
    (parseFileCore "bad.csv" FileType.salary (Except.error "Failed to read file")).1.validRows = 0 ∧
    (parseFileCore "bad.csv" FileType.salary (Except.error "Failed to read file")).1.data = [] ∧
    (parseFileCore "bad.csv" FileType.salary (Except.error "Failed to read file")).1.errors ≠ [] ∧
    ((parseFileCore "bad.csv" FileType.salary (Except.error "Failed to read file")).1.rowCount = 0 ∨
      ∃ rows : List RawRow, Except.error "Failed to read file" = Except.ok rows ∧
        (parseFileCore "bad.csv" FileType.salary
          (Except.error "Failed to read file")).1.rowCount = rows.length) :=
  parseFile_exceptions_converted "bad.csv" FileType.salary
    (Except.error "Failed to read file") "Failed to read file" (by decide)

/-- Counterexample for C2: a file whose salary mapping already passes the
0.1 validity threshold is adopted as salary even though the performance
mapping's validity rate is strictly higher (here 1/2 versus 1), so parseFile
with expectedType unknown does not adopt the higher-rate mapping. -/
theorem parseFile_unknown_not_higher_rate :
    salaryValidityOf
        [[("employee id", "E1"), ("name", "A"), ("base salary", "100")],
         [("employee id", "E2")]] <
      performanceValidityOf
        [[("employee id", "E1"), ("name", "A"), ("base salary", "100")],
         [("employee id", "E2")]] ∧
    (parseFile "mix.csv" FileType.unknown
        (Except.ok [[("employee id", "E1"), ("name", "A"), ("base salary", "100")],
          [("employee id", "E2")]])).fileType = FileType.salary :=
  ⟨by decide, by decide⟩

/-- C2 (amended): with expectedType unknown and a detected format other than
performance, the salary mapping is adopted outright whenever its validity
rate exceeds 0.1; only otherwise is the performance mapping also run, and
the higher-rate mapping adopted with salary winning ties. -/
theorem mapPhase_unknown_adoption (raw : List RawRow) (det : FileType)
    (sd pd : List MappedRow)
    (hdet : det ≠ FileType.performance)
    (hs : salaryMappedData raw = Except.ok sd)
    (hp : mapColumns PERFORMANCE_COLUMN_MAPPINGS raw = Except.ok pd) :
    mapPhase raw FileType.unknown det =
      (if natRatio (countValid (validateSalaryData sd)) (validateSalaryData sd).length >
          mkRat 1 10 then
        Except.ok (sd, validateSalaryData sd, FileType.salary)
      else if natRatio (countValid (validatePerformanceData pd))
            (validatePerformanceData pd).length >
          natRatio (countValid (validateSalaryData sd)) (validateSalaryData sd).length then
        Except.ok (pd, validatePerformanceData pd, FileType.performance)
      else Except.ok (sd, validateSalaryData sd, FileType.salary)) := by
  have hor : det = FileType.salary ∨ det = FileType.unknown := by
    cases det <;> simp_all
  unfold mapPhase firstBlock
  rw [if_pos rfl, if_pos hor, hs]
  dsimp only
  by_cases h1 : natRatio (countValid (validateSalaryData sd)) (validateSalaryData sd).length >
      mkRat 1 10
  · rw [if_pos (Or.inl h1), if_pos h1]
    simp
  · have hcond : ¬(natRatio (countValid (validateSalaryData sd))
        (validateSalaryData sd).length > mkRat 1 10 ∨
        FileType.unknown = FileType.salary) := by simp [h1]
    rw [if_neg hcond, if_pos rfl, hp, if_neg h1]
    dsimp only
    by_cases h2 : natRatio (countValid (validatePerformanceData pd))
        (validatePerformanceData pd).length >
        natRatio (countValid (validateSalaryData sd)) (validateSalaryData sd).length
    · rw [if_pos h2]
      simp
    · rw [if_neg h2]
      simp

/-- Witness for C2 (amended): on the two-row file above (salary rate 1/2)
with detected format salary, the salary mapping is adopted. -/
theorem mapPhase_unknown_adoption_witness :
    mapPhase
        [[("employee id", "E1"), ("name", "A"), ("base salary", "100")],
         [("employee id", "E2")]] FileType.unknown FileType.salary =
      Except.ok
        ([[("employeeId", Value.str "E1"), ("name", Value.str "A"),
           ("baseSalary", Value.num 100)],
          [("employeeId", Value.str "E2")]],
         validateSalaryData
           [[("employeeId", Value.str "E1"), ("name", Value.str "A"),
             ("baseSalary", Value.num 100)],
            [("employeeId", Value.str "E2")]],
         FileType.salary) := by
  have h := mapPhase_unknown_adoption
    [[("employee id", "E1"), ("name", "A"), ("base salary", "100")],
     [("employee id", "E2")]] FileType.salary
    [[("employeeId", Value.str "E1"), ("name", Value.str "A"),
      ("baseSalary", Value.num 100)],
     [("employeeId", Value.str "E2")]]
    [[("employeeId", Value.str "E1"), ("name", Value.str "A")],
     [("employeeId", Value.str "E2")]]
    (by decide) (by decide) (by decide)
  rw [h, if_pos (by decide)]

theorem mergeRows_getElem? : ∀ (s p : List MappedRow) (i : Nat),
    (mergeRows s p)[i]? =
      (match s[i]?, p[i]? with
       | some sr, some pr => some (mergeRow sr pr)
       | some sr, none => some sr
       | none, _ => none) := by
  intro s
  induction s with
  | nil => intro p i; simp [mergeRows]
  | cons x xs ih =>
    intro p i
    cases p with
    | nil =>
      cases h : (x :: xs)[i]? <;> simp [mergeRows, h]
    | cons y ys =>
      cases i with
      | zero => simp [mergeRows]
      | succ n => simp [mergeRows, ih ys n]

/-- C5: If any header of the decoded rows textually contains "performance"
or "rating" and the schema the mapping phase settles on is salary, then the
performance synonym table has also been mapped over the same raw rows and
the mapped data is their positional merge: row i of the output is the salary
row at i with the truthy performance fields of performance row i copied in,
with no employeeId join involved. -/
theorem parseFile_combined_merge (raw : List RawRow) (ty det : FileType)
    (s p m : List MappedRow) (v : List ValidationResult)
    (hperf : hasPerformanceColumns raw = true)
    (hs : mapColumns SALARY_COLUMN_MAPPINGS raw = Except.ok s)
    (hp : mapColumns PERFORMANCE_COLUMN_MAPPINGS raw = Except.ok p)
    (hrun : mapPhase raw ty det = Except.ok (m, v, FileType.salary)) :
    m = mergeRows s p ∧
    ∀ i : Nat, m[i]? =
      (match s[i]?, p[i]? with
       | some sr, some pr => some (mergeRow sr pr)
       | some sr, none => some sr
       | none, _ => none) := by
  have hsmd : salaryMappedData raw = Except.ok (mergeRows s p) := by
    unfold salaryMappedData
    rw [hs]
    dsimp only
    rw [if_pos hperf, hp]
  have hmain : m = mergeRows s p := by
    unfold mapPhase at hrun
    cases hfb : firstBlock raw ty (if ty = FileType.unknown then det else ty) with
    | error e => rw [hfb] at hrun; exact absurd hrun (by simp)
    | ok res =>
      rw [hfb] at hrun
      obtain ⟨m0, v0, t0⟩ := res
      dsimp only at hrun
      by_cases ht0 : t0 = FileType.performance
      · rw [if_pos ht0] at hrun
        rw [hp] at hrun
        simp at hrun
      · rw [if_neg ht0] at hrun
        simp only [Except.ok.injEq, Prod.mk.injEq] at hrun
        obtain ⟨hm0, hv0, ht⟩ := hrun
        subst hm0; subst hv0; subst ht
        unfold firstBlock at hfb
        by_cases hor : (if ty = FileType.unknown then det else ty) = FileType.salary ∨
            (if ty = FileType.unknown then det else ty) = FileType.unknown
        · rw [if_pos hor, hsmd] at hfb
          dsimp only at hfb
          by_cases h1 : natRatio (countValid (validateSalaryData (mergeRows s p)))
              (validateSalaryData (mergeRows s p)).length > mkRat 1 10 ∨
              ty = FileType.salary
          · rw [if_pos h1] at hfb
            simp only [Except.ok.injEq, Prod.mk.injEq] at hfb
            exact hfb.1.symm
          · rw [if_neg h1] at hfb
            by_cases hty : ty = FileType.unknown
            · rw [if_pos hty, hp] at hfb
              dsimp only at hfb
              by_cases h2 : natRatio (countValid (validatePerformanceData p))
                  (validatePerformanceData p).length >
                  natRatio (countValid (validateSalaryData (mergeRows s p)))
                  (validateSalaryData (mergeRows s p)).length
              · rw [if_pos h2] at hfb
                simp at hfb
              · rw [if_neg h2] at hfb
                simp only [Except.ok.injEq, Prod.mk.injEq] at hfb
                exact hfb.1.symm
            · rw [if_neg hty] at hfb
              cases ty <;> simp_all
        · rw [if_neg hor] at hfb
          cases ty <;> simp_all
  subst hmain
  exact ⟨rfl, fun i => mergeRows_getElem? s p i⟩

/-- Witness for C5: one combined row gets the truthy performanceRating
copied onto the salary-mapped row. -/
theorem parseFile_combined_merge_witness :
    [[("employeeId", Value.str "E1"), ("name", Value.str "A"),
      ("baseSalary", Value.num 100), ("performanceRating", Value.str "High")]] =
      mergeRows
        [[("employeeId", Value.str "E1"), ("name", Value.str "A"),
          ("baseSalary", Value.num 100)]]
        [[("employeeId", Value.str "E1"), ("name", Value.str "A"),
          ("performanceRating", Value.str "High")]] :=
  (parseFile_combined_merge
    [[("employee id", "E1"), ("name", "A"), ("base salary", "100"),
      ("performance rating", "High")]]
    FileType.salary FileType.salary
    [[("employeeId", Value.str "E1"), ("name", Value.str "A"),
      ("baseSalary", Value.num 100)]]
    [[("employeeId", Value.str "E1"), ("name", Value.str "A"),
      ("performanceRating", Value.str "High")]]
    [[("employeeId", Value.str "E1"), ("name", Value.str "A"),
      ("baseSalary", Value.num 100), ("performanceRating", Value.str "High")]]
    (validateSalaryData
      [[("employeeId", Value.str "E1"), ("name", Value.str "A"),
        ("baseSalary", Value.num 100), ("performanceRating", Value.str "High")]])
    (by decide) (by decide) (by decide) (by decide)).1

end SalaryDashboard
